import Mathlib

/-!
Verification of the `robotiq2f_tcp` TCP gripper client (`robotiq2f_tcp.py`,
class `Robotiq2F85TCP`) against its natural-language specification.

The transport is modelled as a scripted device: a `Session` carries the list of
commands transmitted so far (each command string is stripped of surrounding
whitespace and sent newline-terminated on the wire) and the queue of raw
response strings the device will return, consumed one per exchange.  The only
mutable Python attribute relevant to the claims is the plain instance
attribute `force` (assigned by `activate_gripper` and `move_to_position`, read
by the `grasp_force` setter); it is the single field of `Gripper`.  Unbounded
`while` polling loops are modelled with an explicit fuel parameter; exhausting
the fuel yields the distinguished `Outcome.timeout`, never a claim of
convergence.  Python exceptions are modelled by `PyError` values returned via
`Except` / `Outcome.err`.
-/

namespace Robotiq2F

/-- Python exceptions the client can raise, by kind. -/
inductive PyError where
  /-- `ValueError`: unparseable integer token, or the read-only position setter. -/
  | valueError (msg : String)
  /-- `IndexError`: `split(" ")[1]` on a response with fewer than two tokens. -/
  | indexError
  /-- `AttributeError`: reading `self.force` before it was ever assigned. -/
  | attributeError
  /-- `ConnectionError` raised by `_check_connection`. -/
  | connectionError (msg : String)
deriving Repr, DecidableEq

/-- Result of an operation containing an unbounded polling loop: success,
a raised `PyError`, or fuel exhaustion of the modelled `while` loop. -/
inductive Outcome (α : Type) where
  | ok (a : α)
  | err (e : PyError)
  | timeout
deriving Repr, DecidableEq

/-- One client/device session: the commands transmitted so far (stripped, in
order) and the raw response strings the scripted device has yet to return. -/
structure Session where
  sent : List String
  pending : List String
deriving Repr, DecidableEq

/-- The object state of `Robotiq2F85TCP`: the plain Python instance attribute
`force` (`none` = never assigned, so reading it raises `AttributeError`).
Note the class defines a `grasp_force` property but no `force` property, so
`self.force = x` is an ordinary attribute assignment. -/
structure Gripper where
  force : Option Int
deriving Repr, DecidableEq

/-- `data.decode()[:-1]` (line 54): a Python `[:-1]` slice drops exactly the
last character of the string, whatever it is; on the empty string it yields
the empty string. -/
def stripLast (s : String) : String := ⟨s.data.dropLast⟩

/-- Python `str.strip` on a character list: drop leading and trailing
whitespace. -/
def stripChars (cs : List Char) : List Char :=
  ((cs.dropWhile Char.isWhitespace).reverse.dropWhile Char.isWhitespace).reverse

/-- Python `str.strip(command)` (line 50). -/
def pyStrip (s : String) : String := ⟨stripChars s.data⟩

/-- Python `s.startswith(p)`. -/
def pyStartsWith (s p : String) : Bool := p.data.isPrefixOf s.data

/-- Python `s.split(" ")` on a character list: split at every single space,
keeping empty fields, so the empty string yields one empty field. -/
def splitOnSpace : List Char → List (List Char)
  | [] => [[]]
  | c :: rest =>
    match splitOnSpace rest with
    | [] => [[]]
    | t :: ts => if c = ' ' then [] :: t :: ts else (c :: t) :: ts

/-- Decimal-digit run to a number; `none` when empty or any character is not
a digit. -/
def parseDigits (cs : List Char) : Option Nat :=
  if cs = [] then none
  else if cs.all Char.isDigit then
    some (cs.foldl (fun acc c => acc * 10 + (c.toNat - '0'.toNat)) 0)
  else none

/-- Python `int(tok)` on a string token: optional surrounding whitespace, one
optional sign, then decimal digits.  (Python additionally accepts underscore
digit separators, which no device response contains.) -/
def parsePyInt (s : String) : Option Int :=
  match (pyStrip s).data with
  | '-' :: rest => (parseDigits rest).map (fun n => -(n : Int))
  | '+' :: rest => (parseDigits rest).map (fun n => (n : Int))
  | cs => (parseDigits cs).map (fun n => (n : Int))

/-- `int(resp.split(" ")[1])`: a missing second token raises `IndexError`, a
non-integer token raises `ValueError`. -/
def parseSecondInt (resp : String) : Except PyError Int :=
  match (splitOnSpace resp.data).get? 1 with
  | none => .error .indexError
  | some tok =>
    match parsePyInt ⟨tok⟩ with
    | none => .error (.valueError ⟨tok⟩)
    | some n => .ok n

/-- `_communicate` (lines 39-56): strip the command, transmit it
newline-terminated, receive one response and return it with its last
character dropped.  The scripted device answers with the head of `pending`
(an exhausted script answers as a closed socket does: empty bytes). -/
def communicate (s : Session) (cmd : String) : String × Session :=
  (stripLast (s.pending.headD ""),
   { sent := s.sent ++ [pyStrip cmd], pending := s.pending.tail })

/-- The response the device will give to the next exchange of session `s`,
after the trailing-character strip. -/
def firstResponse (s : Session) : String := stripLast (s.pending.headD "")

/-- `_saturate_command` (lines 179-181): `min(255, max(cmd, 0))`. -/
def saturate_command (cmd : Int) : Int := min 255 (max cmd 0)

/-- `_is_target_value_set` (lines 183-186): `abs(target - value) < 5`. -/
def is_target_value_set (target value : Int) : Bool :=
  (target - value).natAbs < 5

/-- `position` getter (lines 120-127): `int(communicate("GET POS").split(" ")[1])`. -/
def position_get (s : Session) : Except PyError Int × Session :=
  let (resp, s1) := communicate s "GET POS"
  (parseSecondInt resp, s1)

/-- `position` setter (lines 129-131): raises `ValueError` unconditionally,
without any device exchange. -/
def position_set (s : Session) : Except PyError Unit × Session :=
  (.error (.valueError "cannot set position directly, use target_position"), s)

/-- `target_position` getter (lines 133-136): `GET PRE`. -/
def target_position_get (s : Session) : Except PyError Int × Session :=
  let (resp, s1) := communicate s "GET PRE"
  (parseSecondInt resp, s1)

/-- `speed` getter (lines 150-155): `GET SPE`. -/
def speed_get (s : Session) : Except PyError Int × Session :=
  let (resp, s1) := communicate s "GET SPE"
  (parseSecondInt resp, s1)

/-- `grasp_force` getter (lines 164-170): `GET FOR`. -/
def grasp_force_get (s : Session) : Except PyError Int × Session :=
  let (resp, s1) := communicate s "GET FOR"
  (parseSecondInt resp, s1)

/-- `is_gripper_moving` (lines 116-118): `int(communicate("GET OBJ").split(" ")[1]) == 0`. -/
def is_gripper_moving (s : Session) : Except PyError Bool × Session :=
  let (resp, s1) := communicate s "GET OBJ"
  match parseSecondInt resp with
  | .error e => (.error e, s1)
  | .ok n => (.ok (n == 0), s1)

/-- `is_object_detected` (lines 113-114): `int(communicate("GET OBJ").split(" ")[1]) == 2`. -/
def is_object_detected (s : Session) : Except PyError Bool × Session :=
  let (resp, s1) := communicate s "GET OBJ"
  match parseSecondInt resp with
  | .error e => (.error e, s1)
  | .ok n => (.ok (n == 2), s1)

/-- The `while not self._is_target_value_set(target_position, self.target_position)`
loop of the `target_position` setter (line 147): each iteration reads the
target register back via the `target_position` getter (`GET PRE`). -/
def target_position_wait : Nat → Int → Session → Outcome Unit × Session
  | 0, _, s => (.timeout, s)
  | fuel + 1, target, s =>
    match target_position_get s with
    | (.error e, s1) => (.err e, s1)
    | (.ok current, s1) =>
      if is_target_value_set target current then (.ok (), s1)
      else target_position_wait fuel target s1

/-- `target_position` setter (lines 138-148): transmits
`f"SET  POS {position}"` with the *raw* requested value (note the double
space), then computes the saturated value and polls `GET PRE` until the
read-back is within tolerance of the saturated value. -/
def target_position_set (fuel : Nat) (position : Int) (s : Session) :
    Outcome Unit × Session :=
  let (_, s1) := communicate s ("SET  POS " ++ toString position)
  let target := saturate_command position
  target_position_wait fuel target s1

/-- The `while not self._is_target_value_set(speed, self.speed)` loop of the
`speed` setter (line 161): each iteration reads `GET SPE`. -/
def speed_wait : Nat → Int → Session → Outcome Unit × Session
  | 0, _, s => (.timeout, s)
  | fuel + 1, target, s =>
    match speed_get s with
    | (.error e, s1) => (.err e, s1)
    | (.ok current, s1) =>
      if is_target_value_set target current then (.ok (), s1)
      else speed_wait fuel target s1

/-- `speed` setter (lines 157-162): saturates the value, transmits
`f"SET SPE {speed}"`, then polls `GET SPE` until within tolerance. -/
def speed_set (fuel : Nat) (spd : Int) (s : Session) : Outcome Unit × Session :=
  let spd1 := saturate_command spd
  let (_, s1) := communicate s ("SET SPE " ++ toString spd1)
  speed_wait fuel spd1 s1

/-- The `while not self._is_target_value_set(force, self.force)` loop of the
`grasp_force` setter (line 176): each iteration reads the plain instance
attribute `self.force` (there is no `force` property), so no device exchange
occurs and the compared value never changes. -/
def grasp_force_wait : Nat → Gripper → Int → Session → Outcome Unit × Session
  | 0, _, _, s => (.timeout, s)
  | fuel + 1, g, target, s =>
    match g.force with
    | none => (.err .attributeError, s)
    | some v =>
      if is_target_value_set target v then (.ok (), s)
      else grasp_force_wait fuel g target s

/-- `grasp_force` setter (lines 172-177): saturates the value, transmits
`f"SET FOR {force}"`, then loops comparing against `self.force`. -/
def grasp_force_set (fuel : Nat) (g : Gripper) (force : Int) (s : Session) :
    Outcome Unit × Session :=
  let f := saturate_command force
  let (_, s1) := communicate s ("SET FOR " ++ toString f)
  grasp_force_wait fuel g f s1

/-- Python truthiness of an `int`-or-`None` optional argument (`if speed:`,
`if grasp_force:` on lines 83, 85, 99, 101): `None` and `0` are falsy. -/
def truthy : Option Int → Bool
  | none => false
  | some v => v != 0

/-- The `while self.is_gripper_moving()` loop of `move_to_position`
(lines 88-89): polls `GET OBJ` until the status code is nonzero. -/
def move_wait : Nat → Session → Outcome Unit × Session
  | 0, s => (.timeout, s)
  | fuel + 1, s =>
    match is_gripper_moving s with
    | (.error e, s1) => (.err e, s1)
    | (.ok true, s1) => move_wait fuel s1
    | (.ok false, s1) => (.ok (), s1)

/-- `move_to_position` (lines 75-89): `if speed: self.speed = speed` invokes
the `speed` property setter; `if grasp_force: self.force = grasp_force` is a
plain attribute assignment (no `force` property exists, so no command is
sent); then the `target_position` setter runs, then the motion poll loop. -/
def move_to_position (fuel : Nat) (g : Gripper) (position : Int)
    (speed grasp_force : Option Int) (s : Session) :
    Outcome Unit × Gripper × Session :=
  let step1 : Outcome Unit × Session :=
    if truthy speed then speed_set fuel (speed.getD 0) s else (.ok (), s)
  match step1 with
  | (.ok _, s1) =>
    let g1 : Gripper :=
      if truthy grasp_force then { g with force := some (grasp_force.getD 0) } else g
    match target_position_set fuel position s1 with
    | (.ok _, s2) =>
      let (r, s3) := move_wait fuel s2
      (r, g1, s3)
    | (r, s2) => (r, g1, s2)
  | (r, s1) => (r, g, s1)

/-- `amove_to_position` (lines 91-105): the asynchronous variant, whose body
is identical to `move_to_position` except that it suspends with
`asyncio.sleep` instead of `time.sleep`; the suspension mechanism is not
observable in this model, so the exchanges and state changes are the same. -/
def amove_to_position (fuel : Nat) (g : Gripper) (position : Int)
    (speed grasp_force : Option Int) (s : Session) :
    Outcome Unit × Gripper × Session :=
  let step1 : Outcome Unit × Session :=
    if truthy speed then speed_set fuel (speed.getD 0) s else (.ok (), s)
  match step1 with
  | (.ok _, s1) =>
    let g1 : Gripper :=
      if truthy grasp_force then { g with force := some (grasp_force.getD 0) } else g
    match target_position_set fuel position s1 with
    | (.ok _, s2) =>
      let (r, s3) := move_wait fuel s2
      (r, g1, s3)
    | (r, s2) => (r, g1, s2)
  | (r, s1) => (r, g, s1)

/-- `_check_connection` (lines 30-37): one `GET STA` exchange; raise
`ConnectionError` unless the response starts with `"STA"`. -/
def check_connection (s : Session) : Except PyError Unit × Session :=
  let (resp, s1) := communicate s "GET STA"
  if pyStartsWith resp "STA" then (.ok (), s1)
  else (.error (.connectionError "Could not connect to gripper"), s1)

/-- `__init__` (lines 24-28): store the endpoint (not observable here) and
run `_check_connection`; a successfully constructed object has no `force`
attribute yet. -/
def robotiq_init (s : Session) : Except PyError Gripper × Session :=
  match check_connection s with
  | (.ok _, s1) => (.ok { force := none }, s1)
  | (.error e, s1) => (.error e, s1)

/-! ## Helper lemmas -/

/-- The fixed command literals are already stripped, so `pyStrip` leaves
them unchanged. -/
theorem strip_commands :
    pyStrip "GET POS" = "GET POS" ∧ pyStrip "GET PRE" = "GET PRE" ∧
    pyStrip "GET SPE" = "GET SPE" ∧ pyStrip "GET FOR" = "GET FOR" ∧
    pyStrip "GET OBJ" = "GET OBJ" ∧ pyStrip "GET STA" = "GET STA" := by
  refine ⟨?_, ?_, ?_, ?_, ?_, ?_⟩ <;> decide

/-! ## Claims -/

/-- Claim C5: the saturation helper computes `clamp(v, 0, 255)` for every
integer `v` (in particular for all `v` in `[-100, 400]`), and saturation is
idempotent. -/
theorem saturateClampIdem (v : Int) :
    saturate_command v = max 0 (min 255 v) ∧
    saturate_command (saturate_command v) = saturate_command v := by
  unfold saturate_command
  constructor <;> omega

/-- Claim C4: the convergence predicate `_is_target_value_set` holds iff
`|t - r| < 5`, and the boundary case `|t - r| = 5` does not satisfy it
(strict inequality). -/
theorem convergenceIffAbsLtFive (t r : Int) :
    (is_target_value_set t r = true ↔ |t - r| < 5) ∧
    (|t - r| = 5 → is_target_value_set t r = false) := by
  have habs : |t - r| = ((t - r).natAbs : Int) := Int.abs_eq_natAbs _
  refine ⟨?_, fun h => ?_⟩
  · rw [habs]
    simp only [is_target_value_set, decide_eq_true_eq]
    omega
  · rw [habs] at h
    simp only [is_target_value_set, decide_eq_false_iff_not]
    omega

/-- Claim C4 witness: at target 5 and read-back 0 the distance is exactly 5
and the convergence predicate rejects. -/
theorem convergenceBoundaryWitness : is_target_value_set 5 0 = false :=
  (convergenceIffAbsLtFive 5 0).2 (by decide)

/-- Claim C10: the transport helper returns the decoded response with exactly
its last character removed, whatever that character is (a response lacking a
trailing newline loses its final data character), and an empty response
yields the empty string. -/
theorem communicateDropsLastChar :
    (∀ r : String, ∀ c : Char, stripLast (r.push c) = r) ∧
    stripLast "" = "" ∧
    (∀ s : Session, ∀ cmd : String,
      (communicate s cmd).1 = stripLast (s.pending.headD "")) ∧
    stripLast "POS 10" = "POS 1" := by
  refine ⟨fun r c => ?_, rfl, fun s cmd => rfl, by decide⟩
  show String.mk ((r.push c).data.dropLast) = r
  rw [String.data_push, List.dropLast_concat]

/-- Claim C7: assigning the sensed-position attribute raises `ValueError`
and performs no device exchange: the session (hence the `sent` trace) is
untouched. -/
theorem positionSetterRaisesNoCommand (s : Session) :
    (position_set s).1
        = .error (.valueError "cannot set position directly, use target_position") ∧
    (position_set s).2 = s :=
  ⟨rfl, rfl⟩

/-- Claim C6: construction immediately performs exactly one `GET STA`
exchange; it raises `ConnectionError` when the response does not begin with
`"STA"`, and succeeds only when it does. -/
theorem initChecksStatus (s : Session) :
    ((robotiq_init s).2.sent = s.sent ++ ["GET STA"]) ∧
    (pyStartsWith (firstResponse s) "STA" = false →
      (robotiq_init s).1 = .error (.connectionError "Could not connect to gripper")) ∧
    (pyStartsWith (firstResponse s) "STA" = true →
      (robotiq_init s).1 = .ok { force := none }) := by
  cases hb : pyStartsWith (stripLast (s.pending.head?.getD "")) "STA" <;>
    simp [robotiq_init, check_connection, communicate, firstResponse,
      List.headD_eq_head?, hb, strip_commands.2.2.2.2.2]

/-- Claim C6 witness: against a device answering `"ERR 0"`, construction
fails with the `ConnectionError`. -/
theorem initChecksStatusWitness :
    (robotiq_init { sent := [], pending := ["ERR 0\n"] }).1
      = .error (.connectionError "Could not connect to gripper") :=
  (initChecksStatus { sent := [], pending := ["ERR 0\n"] }).2.1 (by decide)

/-- Claim C8: whenever the next response cannot be parsed into the expected
register token, every getter (position, target-position, speed, grasp-force)
and both `GET OBJ` status queries fail with the parse error immediately,
after exactly one exchange — no retry. -/
theorem parseFailureSurfacedNoRetry (s : Session) (e : PyError)
    (h : parseSecondInt (firstResponse s) = .error e) :
    (position_get s).1 = .error e ∧
    (position_get s).2.sent = s.sent ++ ["GET POS"] ∧
    (target_position_get s).1 = .error e ∧
    (target_position_get s).2.sent = s.sent ++ ["GET PRE"] ∧
    (speed_get s).1 = .error e ∧
    (speed_get s).2.sent = s.sent ++ ["GET SPE"] ∧
    (grasp_force_get s).1 = .error e ∧
    (grasp_force_get s).2.sent = s.sent ++ ["GET FOR"] ∧
    (is_gripper_moving s).1 = .error e ∧
    (is_gripper_moving s).2.sent = s.sent ++ ["GET OBJ"] ∧
    (is_object_detected s).1 = .error e ∧
    (is_object_detected s).2.sent = s.sent ++ ["GET OBJ"] := by
  simp only [firstResponse, List.headD_eq_head?] at h
  refine ⟨?_, ?_, ?_, ?_, ?_, ?_, ?_, ?_, ?_, ?_, ?_, ?_⟩ <;>
    simp [position_get, target_position_get, speed_get, grasp_force_get,
      is_gripper_moving, is_object_detected, communicate, h,
      strip_commands.1, strip_commands.2.1, strip_commands.2.2.1,
      strip_commands.2.2.2.1, strip_commands.2.2.2.2.1]

/-- Claim C8 witness: a device answering the bare token `"ack"` makes the
position getter fail with the `IndexError` of `split(" ")[1]`. -/
theorem parseFailureWitness :
    (position_get { sent := [], pending := ["ack\n"] }).1
      = .error PyError.indexError :=
  (parseFailureSurfacedNoRetry { sent := [], pending := ["ack\n"] }
    PyError.indexError rfl).1

/-- Claim C9: in `move_to_position` and `amove_to_position`, passing `0` for
the optional speed or grasp-force argument behaves exactly as passing `None`:
the truthiness test skips the update, so the value 0 can never be set for
speed or force through these operations. -/
theorem zeroSkipsLikeNone (fuel : Nat) (g : Gripper) (pos : Int)
    (spd gf : Option Int) (s : Session) :
    move_to_position fuel g pos (some 0) gf s
        = move_to_position fuel g pos none gf s ∧
    move_to_position fuel g pos spd (some 0) s
        = move_to_position fuel g pos spd none s ∧
    amove_to_position fuel g pos (some 0) gf s
        = amove_to_position fuel g pos none gf s ∧
    amove_to_position fuel g pos spd (some 0) s
        = amove_to_position fuel g pos spd none s := by
  refine ⟨?_, ?_, ?_, ?_⟩ <;>
    simp [move_to_position, amove_to_position, truthy]

/-- Claim C1 (refuting evidence): the target-position setter transmits the
raw, unclamped requested value.  With request 300 the command sent on the
wire is `"SET  POS 300"`, although the saturated value is 255; the claim
that every transmitted register value is clamped into `[0, 255]` fails. -/
theorem targetPositionSetterSendsRawValue :
    (target_position_set 5 300 { sent := [], pending := ["ack\n", "PRE 255\n"] }).2.sent
      = ["SET  POS 300", "GET PRE"] ∧
    saturate_command 300 = 255 := by
  refine ⟨?_, ?_⟩ <;> decide

/-- Claim C2 (refuting evidence): the grasp-force setter polls the plain
instance attribute `force` instead of re-reading the register.  With the
attribute holding a stale 42 and request 100, the only command ever sent is
`"SET FOR 100"` — no `GET FOR` round-trip occurs even though the device has
a `"FOR 100"` response ready — and the loop never terminates (modelled fuel
of 50 iterations is exhausted). -/
theorem graspForceSetterPollsStaleAttribute :
    (grasp_force_set 50 { force := some 42 } 100
        { sent := [], pending := ["ack\n", "FOR 100\n"] }).1 = Outcome.timeout ∧
    (grasp_force_set 50 { force := some 42 } 100
        { sent := [], pending := ["ack\n", "FOR 100\n"] }).2.sent
      = ["SET FOR 100"] := by
  refine ⟨?_, ?_⟩ <;> decide

/-- Claim C3 (refuting evidence): `move_to_position(255, 255, 10)` never
issues a `SET FOR` command.  Against a device that converges immediately,
the complete command trace is speed write, speed read-back, target-position
write, target-position read-back, one motion-status query — the force value
10 only lands in the plain `force` attribute. -/
theorem moveToPositionNeverSendsForce :
    (move_to_position 50 { force := none } 255 (some 255) (some 10)
        { sent := [], pending := ["ack\n", "SPE 255\n", "ack\n", "PRE 255\n", "OBJ 2\n"] })
      = (Outcome.ok (), { force := some 10 },
         { sent := ["SET SPE 255", "GET SPE", "SET  POS 255", "GET PRE", "GET OBJ"],
           pending := [] }) ∧
    (["SET SPE 255", "GET SPE", "SET  POS 255", "GET PRE", "GET OBJ"].all
        (fun c => !(pyStartsWith c "SET FOR"))) = true := by
  refine ⟨?_, ?_⟩ <;> decide

end Robotiq2F
